import Mathlib

/-!
Verification of the bunsim backend relay service (src/main.py).

The development shallowly embeds the Python service: the provider
directory lookup (`get_model_details`), the request validation performed
by the pydantic model `GenerationRequest`, the endpoint `generate`
including its upstream call and error mapping, and the SSE extraction
loop `stream_generator`. Python dictionaries, lists and JSON values are
modelled by the inductive `Json`; the dynamic operations the code uses
on them (`.get`, `in`, subscripting, truthiness, `.encode`) are modelled
by total Lean functions returning `Except PyErr` where the Python
operation can raise.

The standard library function `json.loads` is modelled by the executable
recursive-descent parser `parseJson` (JSON numbers are modelled by their
integer part and unicode escape sequences are not modelled; no claim in
this development depends on either corner).
-/

/-- Model of a Python/JSON value as produced by `json.loads`. -/
inductive Json where
  | null
  | bool (b : Bool)
  | num (n : Int)
  | str (s : String)
  | arr (elems : List Json)
  | obj (fields : List (String × Json))
deriving Repr, Inhabited

/-- Whitespace characters skipped between JSON tokens. -/
def isJsonWs (c : Char) : Bool :=
  c = ' ' || c = '\t' || c = '\n' || c = '\r'

/-- Drop leading JSON whitespace. -/
def skipWs : List Char → List Char
  | [] => []
  | c :: cs => if isJsonWs c then skipWs cs else c :: cs

/-- Parse the body of a JSON string literal, after the opening quote.
Supports the common escape sequences; unicode escapes are not modelled. -/
def parseStringLit : List Char → Option (String × List Char)
  | [] => none
  | '"' :: rest => some ("", rest)
  | '\\' :: c :: rest =>
    (match c with
      | '"' => some '"'
      | '\\' => some '\\'
      | '/' => some '/'
      | 'n' => some '\n'
      | 't' => some '\t'
      | 'r' => some '\r'
      | 'b' => some (Char.ofNat 8)
      | 'f' => some (Char.ofNat 12)
      | _ => none).bind fun e =>
      match parseStringLit rest with
      | some (s, r) => some (String.mk (e :: s.data), r)
      | none => none
  | c :: rest =>
    match parseStringLit rest with
    | some (s, r) => some (String.mk (c :: s.data), r)
    | none => none

/-- Parse a run of decimal digits into a natural number (left fold). -/
def parseDigits : Nat → List Char → Option (Nat × List Char)
  | acc, c :: cs =>
    if c.isDigit then
      match parseDigits (acc * 10 + (c.toNat - 48)) cs with
      | some r => some r
      | none => some (acc * 10 + (c.toNat - 48), cs)
    else none
  | _, [] => none

/-- Parse a digit run, allowing the run to end at end of input. -/
def parseNatTok (cs : List Char) : Option (Nat × List Char) :=
  match cs with
  | c :: rest =>
    if c.isDigit then
      let rec go (acc : Nat) : List Char → Nat × List Char
        | [] => (acc, [])
        | d :: ds => if d.isDigit then go (acc * 10 + (d.toNat - 48)) ds else (acc, d :: ds)
      some (go (c.toNat - 48) rest)
    else none
  | [] => none

/-- Consume an optional fraction and exponent of a JSON number literal.
The numeric value of these parts is not retained: `Json.num` keeps only
the integer part. -/
def skipFracExp (cs : List Char) : Option (List Char) :=
  let afterFrac :=
    match cs with
    | '.' :: rest =>
      match parseNatTok rest with
      | some p => some p.2
      | none => none
    | _ => some cs
  match afterFrac with
  | none => none
  | some cs2 =>
    match cs2 with
    | 'e' :: rest | 'E' :: rest =>
      let rest2 := match rest with
        | '+' :: r => r
        | '-' :: r => r
        | r => r
      match parseNatTok rest2 with
      | some p => some p.2
      | none => none
    | _ => some cs2

/-- Parse a JSON number literal, keeping the integer part. -/
def parseNumber (cs : List Char) : Option (Json × List Char) :=
  match cs with
  | '-' :: rest =>
    (parseNatTok rest).bind fun p =>
      (skipFracExp p.2).map fun r => (Json.num (-(p.1 : Int)), r)
  | _ =>
    (parseNatTok cs).bind fun p =>
      (skipFracExp p.2).map fun r => (Json.num (p.1 : Int), r)

mutual

/-- Fuel-indexed recursive-descent parser for a JSON value. -/
def parseValue : Nat → List Char → Option (Json × List Char)
  | 0, _ => none
  | Nat.succ f, cs =>
    match skipWs cs with
    | '"' :: rest => (parseStringLit rest).map fun p => (Json.str p.1, p.2)
    | 'n' :: 'u' :: 'l' :: 'l' :: rest => some (Json.null, rest)
    | 't' :: 'r' :: 'u' :: 'e' :: rest => some (Json.bool true, rest)
    | 'f' :: 'a' :: 'l' :: 's' :: 'e' :: rest => some (Json.bool false, rest)
    | '[' :: rest => parseArrayBody f rest
    | '\x7b' :: rest => parseObjBody f rest
    | other => parseNumber other

/-- Parse an array body after the opening bracket. -/
def parseArrayBody : Nat → List Char → Option (Json × List Char)
  | 0, _ => none
  | Nat.succ f, cs =>
    match skipWs cs with
    | ']' :: rest => some (Json.arr [], rest)
    | other =>
      (parseValue f other).bind fun p =>
        (parseArrayTail f p.2).map fun q => (Json.arr (p.1 :: q.1), q.2)

/-- Parse the remaining elements of an array, after one element. -/
def parseArrayTail : Nat → List Char → Option (List Json × List Char)
  | 0, _ => none
  | Nat.succ f, cs =>
    match skipWs cs with
    | ']' :: rest => some ([], rest)
    | ',' :: rest =>
      (parseValue f rest).bind fun p =>
        (parseArrayTail f p.2).map fun q => (p.1 :: q.1, q.2)
    | _ => none

/-- Parse an object body after the opening brace. -/
def parseObjBody : Nat → List Char → Option (Json × List Char)
  | 0, _ => none
  | Nat.succ f, cs =>
    match skipWs cs with
    | '\x7d' :: rest => some (Json.obj [], rest)
    | other =>
      (parseMember f other).bind fun p =>
        (parseObjTail f p.2).map fun q => (Json.obj (p.1 :: q.1), q.2)

/-- Parse the remaining members of an object, after one member. -/
def parseObjTail : Nat → List Char → Option (List (String × Json) × List Char)
  | 0, _ => none
  | Nat.succ f, cs =>
    match skipWs cs with
    | '\x7d' :: rest => some ([], rest)
    | ',' :: rest =>
      (parseMember f rest).bind fun p =>
        (parseObjTail f p.2).map fun q => (p.1 :: q.1, q.2)
    | _ => none

/-- Parse one key-value member of an object. -/
def parseMember : Nat → List Char → Option ((String × Json) × List Char)
  | 0, _ => none
  | Nat.succ f, cs =>
    match skipWs cs with
    | '"' :: rest =>
      (parseStringLit rest).bind fun k =>
        match skipWs k.2 with
        | ':' :: rest2 =>
          (parseValue f rest2).map fun v => ((k.1, v.1), v.2)
        | _ => none
    | _ => none

end

/-- Model of `json.loads`: parse a complete JSON document, requiring
only whitespace after the value. -/
def parseJson (s : String) : Option Json :=
  match parseValue (s.length + 1) s.data with
  | some (j, rest) => if (skipWs rest).isEmpty then some j else none
  | none => none

/-!
Python dynamic semantics used by the extraction loop.

The generator body of `stream_generator` (src/main.py lines 79-111)
manipulates the parsed JSON with Python dynamic operations that can
raise. `PyErr` names the exception classes that can occur there.
-/

/-- Python exceptions that the dynamic operations of the extraction loop
can raise. -/
inductive PyErr where
  | attributeError
  | typeError
  | keyError
  | indexError
deriving Repr, DecidableEq

/-- Lookup in a Python dict built by `json.loads`: with duplicate keys
the last occurrence wins. -/
def objGet (fields : List (String × Json)) (key : String) : Option Json :=
  (fields.reverse.find? fun p => p.1 == key).map Prod.snd

/-- Python truthiness of a JSON value. -/
def pyTruthy : Json → Bool
  | .null => false
  | .bool b => b
  | .num n => n != 0
  | .str s => s != ""
  | .arr xs => !xs.isEmpty
  | .obj fs => !fs.isEmpty

/-- Check whether one character list occurs inside another. -/
def charsContained (pat : List Char) : List Char → Bool
  | [] => pat.isEmpty
  | c :: cs => pat.isPrefixOf (c :: cs) || charsContained pat cs

/-- Check whether `pat` occurs as a substring of `s`. -/
def strContains (s pat : String) : Bool :=
  charsContained pat.data s.data

/-- Python membership test `key in x` for a string key: key membership
for dicts, substring test for strings, element equality for lists, and a
TypeError for the remaining types. -/
def pyContains (key : String) : Json → Except PyErr Bool
  | .obj fs => .ok (fs.any fun p => p.1 == key)
  | .str s => .ok (strContains s key)
  | .arr xs => .ok (xs.any fun x => match x with | .str s => s == key | _ => false)
  | _ => .error .typeError

/-- Python subscript `x[0]` with the integer index 0: list indexing,
string indexing (giving a one-character string), KeyError for a dict
whose keys are all strings, TypeError otherwise. -/
def pySubscriptZero : Json → Except PyErr Json
  | .arr (x :: _) => .ok x
  | .arr [] => .error .indexError
  | .str s =>
    match s.data with
    | c :: _ => .ok (.str (String.mk [c]))
    | [] => .error .indexError
  | .obj _ => .error .keyError
  | _ => .error .typeError

/-- Python subscript `x[key]` with a string key: dict lookup (KeyError
when absent), TypeError for every non-dict value. -/
def pySubscriptStr (key : String) : Json → Except PyErr Json
  | .obj fs =>
    match objGet fs key with
    | some v => .ok v
    | none => .error .keyError
  | _ => .error .typeError

/-- Embedding of src/main.py lines 93-98: given the parsed value of one
SSE data line, compute the fragment the generator yields for it, `none`
when the line yields nothing, or the Python exception raised. The code
is

  choices = data.get(chr(39) ++ "choices" ++ chr(39), [])
  if choices and "delta" in choices[0] and "content" in choices[0]["delta"]:
      content_chunk = choices[0]["delta"]["content"]
      if content_chunk:
          yield content_chunk.encode("utf-8")

where `.get` raises AttributeError on a non-dict and `.encode` raises
AttributeError on a non-string. -/
def extractContent (data : Json) : Except PyErr (Option String) :=
  match data with
  | .obj fs =>
    let choices := (objGet fs "choices").getD (.arr [])
    if pyTruthy choices then
      match pySubscriptZero choices with
      | .error e => .error e
      | .ok c0 =>
        match pyContains "delta" c0 with
        | .error e => .error e
        | .ok false => .ok none
        | .ok true =>
          match pySubscriptStr "delta" c0 with
          | .error e => .error e
          | .ok delta =>
            match pyContains "content" delta with
            | .error e => .error e
            | .ok false => .ok none
            | .ok true =>
              match pySubscriptStr "content" delta with
              | .error e => .error e
              | .ok content =>
                if pyTruthy content then
                  match content with
                  | .str s => .ok (some s)
                  | _ => .error .attributeError
                else .ok none
    else .ok none
  | _ => .error .attributeError

/-- Python whitespace characters stripped by `str.strip()` (the ASCII
ones; unicode whitespace is not modelled). -/
def isPyWs (c : Char) : Bool :=
  c = ' ' || c = '\t' || c = '\n' || c = '\r' || c = Char.ofNat 11 || c = Char.ofNat 12

/-- Model of Python `str.strip()`: remove leading and trailing
whitespace. -/
def pyStrip (s : String) : String :=
  String.mk (((s.data.dropWhile isPyWs).reverse.dropWhile isPyWs).reverse)

/-- Test for the SSE prefix, modelling `decoded_line.startswith(...)`
for the prefix `data: `. -/
def startsWithData (line : String) : Bool :=
  "data: ".data.isPrefixOf line.data

/-- Remainder of a line after the six-character SSE prefix, modelling
the slice the code takes at src/main.py line 87. -/
def afterDataPrefix (line : String) : String :=
  String.mk (line.data.drop 6)

/-- Branch taken by the loop body of `stream_generator` for one upstream
line (src/main.py lines 82-107). -/
inductive LineAction where
  | skipped
  | sentinelDone
  | parseFailed
  | noFragment
  | fragment (s : String)
  | raised (e : PyErr)
deriving Repr, DecidableEq

/-- Embedding of the loop body of `stream_generator` for one decoded
upstream line: empty lines and lines without the SSE prefix are ignored,
a remainder that strips to the sentinel is skipped via `continue`, a
remainder that fails to parse as JSON is logged and skipped (the inner
handler catches only JSONDecodeError), and otherwise the parsed value is
fed to the extraction code, whose exceptions propagate out of the loop
body. -/
def processLine (line : String) : LineAction :=
  if line = "" then .skipped
  else if startsWithData line then
    let json_str := afterDataPrefix line
    if pyStrip json_str = "[DONE]" then .sentinelDone
    else
      match parseJson json_str with
      | none => .parseFailed
      | some data =>
        match extractContent data with
        | .ok (some s) => .fragment s
        | .ok none => .noFragment
        | .error e => .raised e
  else .skipped

/-- Embedding of the `for line in response.iter_lines()` loop (the `try`
body of `stream_generator`): the fragments yielded in order, paired with
the exception that aborted the loop, if any. A raised exception ends the
loop at that line; no later line is processed. -/
def relayLoop : List String → List String × Option PyErr
  | [] => ([], none)
  | l :: ls =>
    match processLine l with
    | .fragment s => (s :: (relayLoop ls).1, (relayLoop ls).2)
    | .raised e => ([], some e)
    | _ => relayLoop ls

/-- Observable outcome of running the generator to completion:
the fragments delivered to the caller, whether an unhandled exception
propagated out of the generator, and whether the upstream response was
closed. -/
structure GenResult where
  fragments : List String
  faulted : Bool
  closed : Bool
deriving Repr, DecidableEq

/-- Embedding of `stream_generator` (src/main.py lines 79-111): the
`try` body is `relayLoop`; the `except Exception` clause swallows any
exception the loop raises, so the generator never faults; the `finally`
clause closes the upstream response on both exit paths. -/
def stream_generator (lines : List String) : GenResult :=
  match relayLoop lines with
  | (fs, none) => { fragments := fs, faulted := false, closed := true }
  | (fs, some _) => { fragments := fs, faulted := false, closed := true }

/-- Embedding of the early-stop exit path: when the caller stops
consuming after `n` fragments, the generator is closed at its current
yield (GeneratorExit); the `finally` clause still runs and closes the
upstream response. -/
def stream_generator_stopEarly (lines : List String) (n : Nat) : GenResult :=
  { fragments := (relayLoop lines).1.take n, faulted := false, closed := true }

/-- Fragments the caller receives from a full run of the generator. -/
def relayFragments (lines : List String) : List String :=
  (stream_generator lines).fragments

/-!
Provider directory and the endpoint.

The directory is the JSON list loaded from provider.json at startup;
each provider record carries a url, an optional apiKey and a list of
model mappings. `get_model_details` embeds src/main.py lines 29-38.
-/

/-- One entry of a provider record in provider.json: a public model
name mapped to the upstream model name. -/
structure ModelMapping where
  name : String
  apiName : String
deriving Repr, DecidableEq

/-- One provider record of provider.json. The apiKey field is optional
in the file, hence the `Option`. -/
structure Provider where
  url : String
  models : List ModelMapping
  apiKey : Option String
deriving Repr, DecidableEq

/-- Result record of `get_model_details` (src/main.py lines 33-37). -/
structure ModelDetails where
  apiName : String
  url : String
  apiKey : String
deriving Repr, DecidableEq

/-- Inner loop of `get_model_details`: first model of the list whose
public name equals the requested name. -/
def findModel : List ModelMapping → String → Option ModelMapping
  | [], _ => none
  | m :: ms, n => if m.name = n then some m else findModel ms n

/-- Embedding of `get_model_details` (src/main.py lines 29-38): scan
providers in load order, and each provider models list in order; the
first match returns the apiName of that model, the provider url, and the
provider apiKey with a missing key read as the empty string. -/
def get_model_details : List Provider → String → Option ModelDetails
  | [], _ => none
  | p :: ps, n =>
    match findModel p.models n with
    | some m => some { apiName := m.apiName, url := p.url, apiKey := p.apiKey.getD "" }
    | none => get_model_details ps n

/-- Validated request body, as the pydantic model `GenerationRequest`
(src/main.py lines 11-13): a string model name and a list of message
objects. -/
structure GenerationRequest where
  modelName : String
  messages : List Json
deriving Repr

/-- Raw JSON body of an inbound request before validation: each of the
two expected fields is present with some JSON value, or absent. -/
structure RawBody where
  modelName : Option Json
  messages : Option Json
deriving Repr

/-- Check that a JSON value is an object, as pydantic checks each
message against `Dict[str, Any]`. -/
def isObjVal : Json → Bool
  | .obj _ => true
  | _ => false

/-- Embedding of the pydantic validation of `GenerationRequest`:
`modelName` must be present and a string (the empty string passes),
`messages` must be present and a list of objects. Any other shape is a
validation failure, which FastAPI reports as a 422 client error before
the endpoint body runs. -/
def validateBody (b : RawBody) : Option GenerationRequest :=
  match b.modelName, b.messages with
  | some (.str n), some (.arr ms) =>
    if ms.all isObjVal then some { modelName := n, messages := ms } else none
  | _, _ => none

/-- Detail payload of an HTTPException: either a plain string or a
parsed JSON body (src/main.py lines 118-123). -/
inductive Detail where
  | text (s : String)
  | json (j : Json)
deriving Repr

/-- Behaviour of the upstream provider for the single outbound call
`requests.post` makes: either the connection fails with no response
(connect, DNS or timeout failure, modelled with the exception message),
or a response arrives with a status code, a raw body, and the lines of
its streamed body. -/
inductive UpstreamBehavior where
  | unreachable (errMsg : String)
  | respond (status : Nat) (body : String) (lines : List String)
deriving Repr

/-- Record of the single outbound HTTP request issued by
`requests.post(api_url, headers=headers, json=payload, stream=True,
timeout=300)` (src/main.py line 76). -/
structure UpstreamCall where
  method : String
  url : String
  headers : List (String × String)
  bodyModel : String
  bodyMessages : List Json
  bodyStream : Bool
  timeout : Nat
deriving Repr

/-- Response the caller of `POST /api/generate` receives. -/
inductive EndpointResponse where
  | streaming (mediaType : String) (result : GenResult)
  | httpError (status : Nat) (detail : Detail)
  | validationError (status : Nat)
deriving Repr

/-- Apostrophe character, used in the 404 detail string. -/
def apos : String :=
  String.mk [Char.ofNat 39]

/-- Detail string of the 404 response (src/main.py line 57). -/
def notFoundDetail (name : String) : String :=
  "Model " ++ apos ++ name ++ apos ++ " not found in provider.json"

/-- Embedding of the endpoint body `generate` (src/main.py lines
52-124) after validation: resolve the model; on a miss raise 404 with
the provider.json detail and make no outbound call. Otherwise issue the
single outbound call; `raise_for_status` turns any 4xx or 5xx upstream
status into a RequestException whose response is present, and a
connection failure raises a RequestException whose response is absent.
The handler maps either to a 502 whose detail is the parsed JSON body
of the upstream response, its raw text when unparsable, or the
connection error string naming the attempted URL. On success the
endpoint returns a streaming response over `stream_generator` with
media type text/plain. The second component records the outbound calls
issued. -/
def generate (model_providers : List Provider) (req : GenerationRequest)
    (upstream : UpstreamBehavior) : EndpointResponse × List UpstreamCall :=
  match get_model_details model_providers req.modelName with
  | none =>
    (.httpError 404 (.text (notFoundDetail req.modelName)), [])
  | some details =>
    let call : UpstreamCall :=
      { method := "POST"
        url := details.url
        headers := [("Content-Type", "application/json"),
                    ("Authorization", "Bearer " ++ details.apiKey)]
        bodyModel := details.apiName
        bodyMessages := req.messages
        bodyStream := true
        timeout := 300 }
    match upstream with
    | .unreachable errMsg =>
      (.httpError 502
        (.text ("Failed to connect to the AI provider at " ++ details.url
          ++ ". Error: " ++ errMsg)), [call])
    | .respond status body lines =>
      if 400 ≤ status ∧ status < 600 then
        let detail : Detail :=
          match parseJson body with
          | some j => .json j
          | none => .text body
        (.httpError 502 detail, [call])
      else
        (.streaming "text/plain" (stream_generator lines), [call])

/-- Embedding of the full front door for `POST /api/generate`: FastAPI
validates the body against `GenerationRequest` and answers 422 on
failure without running the endpoint; otherwise the endpoint body
runs. -/
def handleRequest (model_providers : List Provider) (body : RawBody)
    (upstream : UpstreamBehavior) : EndpointResponse × List UpstreamCall :=
  match validateBody body with
  | none => (.validationError 422, [])
  | some req => generate model_providers req upstream

/-- Media type of a response when it is a streaming response. -/
def streamingMediaType : EndpointResponse → Option String
  | .streaming mt _ => some mt
  | _ => none

mutual

/-- Serialisation of a JSON value, as the detail of an HTTPException is
serialised into the body of the outbound error response. -/
def renderJson : Json → String
  | .null => "null"
  | .bool true => "true"
  | .bool false => "false"
  | .num n => toString n
  | .str s => "\"" ++ s ++ "\""
  | .arr xs => "[" ++ renderArr xs ++ "]"
  | .obj fs => "\x7b" ++ renderObj fs ++ "\x7d"

/-- Serialise array elements, comma separated. -/
def renderArr : List Json → String
  | [] => ""
  | [x] => renderJson x
  | x :: xs => renderJson x ++ ", " ++ renderArr xs

/-- Serialise object members, comma separated. -/
def renderObj : List (String × Json) → String
  | [] => ""
  | [(k, v)] => "\"" ++ k ++ "\": " ++ renderJson v
  | (k, v) :: fs => "\"" ++ k ++ "\": " ++ renderJson v ++ ", " ++ renderObj fs

end

/-- Text a detail payload presents to the caller. -/
def renderDetail : Detail → String
  | .text s => s
  | .json j => renderJson j

/-- The SSE line carrying the fragment `Hi` used throughout the spec. -/
def hiLine : String :=
  "data: \x7b\"choices\":[\x7b\"delta\":\x7b\"content\":\"Hi\"\x7d\x7d]\x7d"

/-- The SSE end-of-stream sentinel line. -/
def doneLine : String :=
  "data: [DONE]"

/-- Resolution rule restated from the spec words, for comparison with
the code: scan providers in load order, then models within a provider
in load order, and return the first match, reading a missing credential
as the empty string. -/
def resolveSpec (providers : List Provider) (name : String) : Option ModelDetails :=
  providers.findSome? fun p =>
    (p.models.find? fun m => m.name == name).map fun m =>
      { apiName := m.apiName, url := p.url, apiKey := p.apiKey.getD "" }

/-- One-provider directory used by several closed witnesses. -/
def demoProviders : List Provider :=
  [{ url := "http://up.example/v1", models := [{ name := "pub", apiName := "up" }],
     apiKey := some "k" }]

/-- Directory whose single provider defines the empty string as a
public model name. -/
def emptyNameProviders : List Provider :=
  [{ url := "http://up.example/v1", models := [{ name := "", apiName := "m" }],
     apiKey := some "k" }]

/-- The upstream error body used in the spec example. -/
def overloadedBody : String :=
  "\x7b\"error\":\"overloaded\"\x7d"

/-!
Helper lemmas about the relay loop, the directory scan, and substring
containment.
-/

/-- A line that starts with the SSE prefix is not the empty line. -/
theorem ne_empty_of_startsWithData {l : String} (h : startsWithData l = true) :
    l ≠ "" := by
  intro he
  subst he
  exact absurd h (by decide)

/-- The generator always completes with the fragments of the relay
loop, no propagated fault, and a closed upstream response. -/
theorem stream_generator_run (lines : List String) :
    stream_generator lines
      = { fragments := (relayLoop lines).1, faulted := false, closed := true } := by
  unfold stream_generator
  rcases h : relayLoop lines with ⟨fs, e⟩
  cases e <;> simp [h]

/-- A line whose action yields a fragment prepends it to the relay
output. -/
theorem relayFragments_cons_of_fragment (l s : String) (ls : List String)
    (h : processLine l = .fragment s) :
    relayFragments (l :: ls) = s :: relayFragments ls := by
  simp [relayFragments, stream_generator_run, relayLoop, h]

/-- A line whose action is skipped, the sentinel, a parse failure, or an
empty extraction contributes nothing and does not stop the loop. -/
theorem relayFragments_cons_of_silent (l : String) (ls : List String)
    (h : processLine l = .skipped ∨ processLine l = .sentinelDone ∨
         processLine l = .parseFailed ∨ processLine l = .noFragment) :
    relayFragments (l :: ls) = relayFragments ls := by
  rcases h with h | h | h | h <;>
    simp [relayFragments, stream_generator_run, relayLoop, h]

/-- Containment follows from a prefix. -/
theorem charsContained_of_prefix {pat l : List Char} (h : pat <+: l) :
    charsContained pat l = true := by
  cases l with
  | nil =>
    have hp : pat = [] := List.prefix_nil.mp h
    simp [charsContained, hp]
  | cons c cs =>
    have hp : pat.isPrefixOf (c :: cs) = true := by
      rw [List.isPrefixOf_iff_prefix]
      exact h
    simp [charsContained, hp]

/-- Containment follows from an infix occurrence. -/
theorem charsContained_of_infix {pat l : List Char} (h : pat <:+: l) :
    charsContained pat l = true := by
  induction l with
  | nil =>
    have hp : pat = [] := List.eq_nil_of_infix_nil h
    simp [charsContained, hp]
  | cons c cs ih =>
    rcases List.infix_cons_iff.mp h with hp | hi
    · exact charsContained_of_prefix hp
    · simp [charsContained, ih hi]

/-- A string contains any middle factor of a concatenation. -/
theorem strContains_middle (a b c : String) :
    strContains (a ++ b ++ c) b = true := by
  apply charsContained_of_infix
  refine ⟨a.data, c.data, ?_⟩
  simp

/-- The inner scan of the directory is the first-match scan of the
model list. -/
theorem findModel_eq_find? (ms : List ModelMapping) (n : String) :
    findModel ms n = ms.find? fun m => m.name == n := by
  induction ms with
  | nil => rfl
  | cons m ms ih =>
    by_cases h : m.name = n <;> simp [findModel, h, ih]

/-- When no model of the list has the requested public name the inner
scan misses. -/
theorem findModel_eq_none (ms : List ModelMapping) (n : String)
    (h : ∀ m ∈ ms, m.name ≠ n) : findModel ms n = none := by
  induction ms with
  | nil => rfl
  | cons m ms ih =>
    simp only [findModel, if_neg (h m (by simp))]
    exact ih fun x hx => h x (by simp [hx])

/-- When no provider of the directory has the requested public name the
lookup misses. -/
theorem get_model_details_eq_none (ps : List Provider) (n : String)
    (h : ∀ p ∈ ps, ∀ m ∈ p.models, m.name ≠ n) :
    get_model_details ps n = none := by
  induction ps with
  | nil => rfl
  | cons p ps ih =>
    simp only [get_model_details, findModel_eq_none p.models n (h p (by simp))]
    exact ih fun q hq => h q (by simp [hq])

/-- A hit in a directory is preserved when further providers are loaded
after it. -/
theorem get_model_details_append_of_some (ps more : List Provider) (n : String)
    (d : ModelDetails) (h : get_model_details ps n = some d) :
    get_model_details (ps ++ more) n = some d := by
  induction ps with
  | nil => simp [get_model_details] at h
  | cons p ps ih =>
    simp only [List.cons_append, get_model_details] at h ⊢
    cases hf : findModel p.models n with
    | some m => rw [hf] at h; exact h
    | none => rw [hf] at h; exact ih h

/-- Object lookup misses exactly when no member has the key. -/
theorem objGet_eq_none_iff (fs : List (String × Json)) (k : String) :
    objGet fs k = none ↔ (fs.any fun p => p.1 == k) = false := by
  simp [objGet, List.find?_eq_none, List.any_eq_true]

/-- Object lookup hits exactly when some member has the key. -/
theorem objGet_isSome_any (fs : List (String × Json)) (k : String)
    (v : Json) (h : objGet fs k = some v) :
    (fs.any fun p => p.1 == k) = true := by
  by_contra hc
  rw [Bool.not_eq_true] at hc
  rw [(objGet_eq_none_iff fs k).mpr hc] at h
  exact Option.noConfusion h

/-!
Claim theorems.
-/

/-- C1: in extraction mode, the line carrying the delta fragment `Hi`
forwards exactly `Hi`; a `data: [DONE]` line forwards nothing and later
lines of the same stream are still processed; a `data: ` line whose
remainder fails to parse as JSON is skipped without terminating the
relay; a blank line or a line without the `data: ` prefix forwards
nothing; and any streaming response the endpoint returns declares the
content type text/plain. -/
theorem C1_extraction_mode_lines (ls : List String) (bad : String)
    (hbadPrefix : startsWithData bad = true)
    (hbadDone : pyStrip (afterDataPrefix bad) ≠ "[DONE]")
    (hbadParse : parseJson (afterDataPrefix bad) = none)
    (other : String) (hother : startsWithData other = false) :
    relayFragments (hiLine :: ls) = "Hi" :: relayFragments ls
    ∧ relayFragments (doneLine :: ls) = relayFragments ls
    ∧ relayFragments (bad :: ls) = relayFragments ls
    ∧ relayFragments ("" :: ls) = relayFragments ls
    ∧ relayFragments (other :: ls) = relayFragments ls
    ∧ ∀ ps rq ub, streamingMediaType (generate ps rq ub).1 = none
        ∨ streamingMediaType (generate ps rq ub).1 = some "text/plain" := by
  refine ⟨?_, ?_, ?_, ?_, ?_, ?_⟩
  · exact relayFragments_cons_of_fragment hiLine "Hi" ls rfl
  · exact relayFragments_cons_of_silent doneLine ls (Or.inr (Or.inl rfl))
  · apply relayFragments_cons_of_silent
    have hact : processLine bad = .parseFailed := by
      simp [processLine, ne_empty_of_startsWithData hbadPrefix,
        hbadPrefix, hbadDone, hbadParse]
    exact Or.inr (Or.inr (Or.inl hact))
  · exact relayFragments_cons_of_silent "" ls (Or.inl rfl)
  · apply relayFragments_cons_of_silent
    have hact : processLine other = .skipped := by
      by_cases he : other = "" <;> simp [processLine, he, hother]
    exact Or.inl hact
  · intro ps rq ub
    unfold generate
    cases hd : get_model_details ps rq.modelName with
    | none => left; rfl
    | some d =>
      cases ub with
      | unreachable e => left; rfl
      | respond st b lines =>
        by_cases hs : 400 ≤ st ∧ st < 600
        · left
          simp [hs, streamingMediaType]
        · right
          simp [hs, streamingMediaType]

/-- Closed witness for C1 at the concrete lines the spec names. -/
theorem C1_extraction_mode_lines_witness :
    relayFragments (hiLine :: []) = "Hi" :: relayFragments []
    ∧ relayFragments (doneLine :: []) = relayFragments []
    ∧ relayFragments ("data: nope" :: []) = relayFragments []
    ∧ relayFragments ("" :: []) = relayFragments []
    ∧ relayFragments (": ping" :: []) = relayFragments []
    ∧ ∀ ps rq ub, streamingMediaType (generate ps rq ub).1 = none
        ∨ streamingMediaType (generate ps rq ub).1 = some "text/plain" :=
  C1_extraction_mode_lines [] "data: nope" (by decide) (by decide) (by rfl)
    ": ping" (by decide)

/-- C5: the relay generator treats any exception raised while iterating
the upstream stream as a clean end of stream, never propagating a fault
into the in-flight response, and the upstream response is closed on
every exit path: normal completion, early stop by the consumer, and a
mid-stream exception (witnessed by a line on which the extraction code
raises). -/
theorem C5_stream_fault_cleanup (lines : List String) (n : Nat) :
    (stream_generator lines).faulted = false
    ∧ (stream_generator lines).closed = true
    ∧ (stream_generator lines).fragments = (relayLoop lines).1
    ∧ (stream_generator_stopEarly lines n).faulted = false
    ∧ (stream_generator_stopEarly lines n).closed = true
    ∧ (relayLoop ["data: \"hello\""]).2 = some .attributeError
    ∧ stream_generator ["data: \"hello\""]
        = { fragments := [], faulted := false, closed := true } := by
  refine ⟨?_, ?_, ?_, rfl, rfl, rfl, rfl⟩ <;> simp [stream_generator_run]

/-- C2: the directory lookup is the first-match scan in load order over
providers and, within a provider, over models; a hit is unchanged by
any providers loaded after it (so with a duplicated public name the
first-loaded provider wins on every call, the lookup being a pure
function of the directory and the name); and a matching provider
without a credential yields the empty string as credential. -/
theorem C2_resolve_first_match (ps more : List Provider) (n : String)
    (d : ModelDetails) (h : get_model_details ps n = some d)
    (p : Provider) (hkey : p.apiKey = none) (d2 : ModelDetails)
    (h2 : get_model_details [p] n = some d2) :
    get_model_details ps n = resolveSpec ps n
    ∧ get_model_details (ps ++ more) n = some d
    ∧ d2.apiKey = "" := by
  refine ⟨?_, get_model_details_append_of_some ps more n d h, ?_⟩
  · clear h
    induction ps with
    | nil => rfl
    | cons q ps ih =>
      simp only [get_model_details, resolveSpec, List.findSome?_cons,
        findModel_eq_find? q.models n]
      cases hf : q.models.find? fun m => m.name == n with
      | some m => simp
      | none => simpa [resolveSpec] using ih
  · simp only [get_model_details, hkey] at h2
    cases hf : findModel p.models n with
    | none => rw [hf] at h2; exact Option.noConfusion h2
    | some m =>
      rw [hf] at h2
      have := Option.some.inj h2
      rw [← this]
      rfl

/-- Closed witness for C2: a two-provider directory defining the same
public name twice, with the first provider lacking a credential. -/
theorem C2_resolve_first_match_witness :
    get_model_details
        [{ url := "http://a.example", models := [{ name := "m", apiName := "a" }], apiKey := none }]
        "m"
      = resolveSpec
        [{ url := "http://a.example", models := [{ name := "m", apiName := "a" }], apiKey := none }]
        "m"
    ∧ get_model_details
        ([{ url := "http://a.example", models := [{ name := "m", apiName := "a" }], apiKey := none }]
          ++ [{ url := "http://b.example", models := [{ name := "m", apiName := "b" }], apiKey := some "k" }])
        "m"
      = some { apiName := "a", url := "http://a.example", apiKey := "" }
    ∧ ModelDetails.apiKey { apiName := "a", url := "http://a.example", apiKey := "" } = "" :=
  C2_resolve_first_match
    [{ url := "http://a.example", models := [{ name := "m", apiName := "a" }], apiKey := none }]
    [{ url := "http://b.example", models := [{ name := "m", apiName := "b" }], apiKey := some "k" }]
    "m" { apiName := "a", url := "http://a.example", apiKey := "" } rfl
    { url := "http://a.example", models := [{ name := "m", apiName := "a" }], apiKey := none }
    rfl { apiName := "a", url := "http://a.example", apiKey := "" } rfl

/-- C6: whenever the request resolves to a target, exactly one outbound
streaming HTTP POST is issued, to the target URL, with the
Content-Type application/json and Authorization Bearer headers (the
credential possibly empty), a JSON body carrying the upstream model
name, the request messages unmodified, and stream true, under a
300-second timeout. -/
theorem C6_upstream_call_shape (ps : List Provider) (req : GenerationRequest)
    (ub : UpstreamBehavior) (d : ModelDetails)
    (h : get_model_details ps req.modelName = some d) :
    ∃ c, (generate ps req ub).2 = [c]
      ∧ c.method = "POST"
      ∧ c.url = d.url
      ∧ c.headers = [("Content-Type", "application/json"),
                     ("Authorization", "Bearer " ++ d.apiKey)]
      ∧ c.bodyModel = d.apiName
      ∧ c.bodyMessages = req.messages
      ∧ c.bodyStream = true
      ∧ c.timeout = 300 := by
  unfold generate
  rw [h]
  cases ub with
  | unreachable e =>
    exact ⟨_, rfl, rfl, rfl, rfl, rfl, rfl, rfl, rfl⟩
  | respond st b lines =>
    dsimp only
    by_cases hc : 400 ≤ st ∧ st < 600
    · rw [if_pos hc]
      exact ⟨_, rfl, rfl, rfl, rfl, rfl, rfl, rfl, rfl⟩
    · rw [if_neg hc]
      exact ⟨_, rfl, rfl, rfl, rfl, rfl, rfl, rfl, rfl⟩

/-- Closed witness for C6 at a concrete directory and request. -/
theorem C6_upstream_call_shape_witness :
    ∃ c, (generate demoProviders { modelName := "pub", messages := [.obj [("role", .str "user")]] }
        (.respond 200 "" [])).2 = [c]
      ∧ c.method = "POST"
      ∧ c.url = ModelDetails.url { apiName := "up", url := "http://up.example/v1", apiKey := "k" }
      ∧ c.headers = [("Content-Type", "application/json"),
                     ("Authorization", "Bearer " ++ ModelDetails.apiKey { apiName := "up", url := "http://up.example/v1", apiKey := "k" })]
      ∧ c.bodyModel = ModelDetails.apiName { apiName := "up", url := "http://up.example/v1", apiKey := "k" }
      ∧ c.bodyMessages = GenerationRequest.messages { modelName := "pub", messages := [.obj [("role", .str "user")]] }
      ∧ c.bodyStream = true
      ∧ c.timeout = 300 :=
  C6_upstream_call_shape demoProviders
    { modelName := "pub", messages := [.obj [("role", .str "user")]] }
    (.respond 200 "" [])
    { apiName := "up", url := "http://up.example/v1", apiKey := "k" } rfl

/-- C7: when no provider and model pair carries the requested public
name the lookup returns none (it is a total function, so it cannot
throw), and the endpoint then answers 404 with the detail string
naming the requested model and provider.json, making no outbound
call. -/
theorem C7_unknown_model_404 (ps : List Provider) (name : String)
    (hmiss : ∀ p ∈ ps, ∀ m ∈ p.models, m.name ≠ name)
    (req : GenerationRequest) (ub : UpstreamBehavior)
    (hreq : get_model_details ps req.modelName = none) :
    get_model_details ps name = none
    ∧ generate ps req ub
      = (.httpError 404 (.text ("Model " ++ apos ++ req.modelName ++ apos
          ++ " not found in provider.json")), []) := by
  refine ⟨get_model_details_eq_none ps name hmiss, ?_⟩
  unfold generate
  rw [hreq]
  rfl

/-- Closed witness for C7 at a concrete directory and request. -/
theorem C7_unknown_model_404_witness :
    get_model_details demoProviders "ghost" = none
    ∧ generate demoProviders { modelName := "ghost", messages := [] } (.respond 200 "" [])
      = (.httpError 404 (.text ("Model " ++ apos ++ GenerationRequest.modelName { modelName := "ghost", messages := [] } ++ apos
          ++ " not found in provider.json")), []) :=
  C7_unknown_model_404 demoProviders "ghost" (by decide)
    { modelName := "ghost", messages := [] } (.respond 200 "" []) rfl

/-- Counterexample to C3 as stated: a request whose model identifier is
the empty string passes validation, and when the directory maps the
empty public name, the service issues the outbound call and answers
with a 200 streaming response, not a 400-class rejection. -/
theorem C3_counterexample :
    (handleRequest emptyNameProviders
        { modelName := some (.str ""), messages := some (.arr []) }
        (.respond 200 "" [])).2.length = 1
    ∧ (handleRequest emptyNameProviders
        { modelName := some (.str ""), messages := some (.arr []) }
        (.respond 200 "" [])).1
      = .streaming "text/plain" { fragments := [], faulted := false, closed := true } :=
  ⟨rfl, rfl⟩

/-- C3 as amended: a request whose model identifier or message list is
absent is rejected with a 422 validation error before any upstream
call; a request whose model identifier is the empty string passes
validation and, provided no directory entry has an empty public name,
is rejected with a 404 and no upstream call. -/
theorem C3_reject_before_upstream (ps : List Provider) (ub : UpstreamBehavior)
    (b : RawBody) (hmiss : b.modelName = none ∨ b.messages = none)
    (msgs : List Json) (hobjs : msgs.all isObjVal = true)
    (hnoempty : ∀ p ∈ ps, ∀ m ∈ p.models, m.name ≠ "") :
    handleRequest ps b ub = (.validationError 422, [])
    ∧ handleRequest ps { modelName := some (.str ""), messages := some (.arr msgs) } ub
      = (.httpError 404 (.text (notFoundDetail "")), []) := by
  constructor
  · have hv : validateBody b = none := by
      rcases hmiss with h | h
      · unfold validateBody
        rw [h]
      · unfold validateBody
        rw [h]
        cases hm : b.modelName with
        | none => rfl
        | some j => cases j <;> rfl
    unfold handleRequest
    rw [hv]
  · have hv : validateBody { modelName := some (.str ""), messages := some (.arr msgs) }
        = some { modelName := "", messages := msgs } := by
      simp [validateBody, hobjs]
    unfold handleRequest
    rw [hv]
    dsimp only
    unfold generate
    dsimp only
    rw [get_model_details_eq_none ps "" hnoempty]

/-- Closed witness for the amended C3. -/
theorem C3_reject_before_upstream_witness :
    handleRequest demoProviders { modelName := none, messages := some (.arr []) }
        (.respond 200 "" [])
      = (.validationError 422, [])
    ∧ handleRequest demoProviders
        { modelName := some (.str ""), messages := some (.arr [.obj [("role", .str "user")]]) }
        (.respond 200 "" [])
      = (.httpError 404 (.text (notFoundDetail "")), []) :=
  C3_reject_before_upstream demoProviders (.respond 200 "" [])
    { modelName := none, messages := some (.arr []) } (Or.inl rfl)
    [.obj [("role", .str "user")]] rfl (by decide)

/-- Counterexample to C4 as stated: for an upstream 503 with body
naming only the overload error, the 502 detail is exactly the parsed
upstream body; rendered, the detail does not contain the attempted
upstream URL, contradicting the part of the claim that the detail
always contains that URL. -/
theorem C4_counterexample :
    (generate demoProviders { modelName := "pub", messages := [] }
        (.respond 503 overloadedBody [])).1
      = .httpError 502 (.json (.obj [("error", .str "overloaded")]))
    ∧ strContains (renderDetail (.json (.obj [("error", .str "overloaded")])))
        "http://up.example/v1" = false :=
  ⟨rfl, rfl⟩

/-- C4 as amended: when the upstream call fails before streaming
starts, the caller receives a 502; when the upstream responded with a
non-2xx status, the detail is the upstream error body alone, parsed
JSON if parsable and raw text otherwise (so a 503 with the overloaded
body yields a 502 carrying that body verbatim, without the URL); when
the upstream is unreachable, the detail is a text message containing
the attempted upstream URL, and no streaming response is started. -/
theorem C4_upstream_failure_502 (ps : List Provider) (req : GenerationRequest)
    (d : ModelDetails) (h : get_model_details ps req.modelName = some d)
    (status : Nat) (hs1 : 400 ≤ status) (hs2 : status < 600)
    (body : String) (lines : List String) (emsg : String) :
    (generate ps req (.respond status body lines)).1
      = .httpError 502 (match parseJson body with
          | some j => .json j
          | none => .text body)
    ∧ (generate ps req (.unreachable emsg)).1
      = .httpError 502 (.text ("Failed to connect to the AI provider at "
          ++ d.url ++ ". Error: " ++ emsg))
    ∧ strContains ("Failed to connect to the AI provider at "
          ++ d.url ++ ". Error: " ++ emsg) d.url = true
    ∧ ∀ mt gr, (generate ps req (.unreachable emsg)).1 ≠ .streaming mt gr := by
  refine ⟨?_, ?_, ?_, ?_⟩
  · unfold generate
    rw [h]
    dsimp only
    rw [if_pos ⟨hs1, hs2⟩]
  · unfold generate
    rw [h]
  · have := strContains_middle "Failed to connect to the AI provider at "
      d.url (". Error: " ++ emsg)
    simpa [String.append_assoc] using this
  · intro mt gr hcontra
    unfold generate at hcontra
    rw [h] at hcontra
    exact EndpointResponse.noConfusion hcontra

/-- Closed witness for the amended C4 at the spec example inputs. -/
theorem C4_upstream_failure_502_witness :
    (generate demoProviders { modelName := "pub", messages := [] }
        (.respond 503 overloadedBody [])).1
      = .httpError 502 (match parseJson overloadedBody with
          | some j => .json j
          | none => .text overloadedBody)
    ∧ (generate demoProviders { modelName := "pub", messages := [] }
        (.unreachable "dns failure")).1
      = .httpError 502 (.text ("Failed to connect to the AI provider at "
          ++ ModelDetails.url { apiName := "up", url := "http://up.example/v1", apiKey := "k" }
          ++ ". Error: " ++ "dns failure"))
    ∧ strContains ("Failed to connect to the AI provider at "
          ++ ModelDetails.url { apiName := "up", url := "http://up.example/v1", apiKey := "k" }
          ++ ". Error: " ++ "dns failure")
        (ModelDetails.url { apiName := "up", url := "http://up.example/v1", apiKey := "k" }) = true
    ∧ ∀ mt gr, (generate demoProviders { modelName := "pub", messages := [] }
        (.unreachable "dns failure")).1 ≠ .streaming mt gr :=
  C4_upstream_failure_502 demoProviders { modelName := "pub", messages := [] }
    { apiName := "up", url := "http://up.example/v1", apiKey := "k" } rfl
    503 (by decide) (by decide) overloadedBody [] "dns failure"

/-- Counterexample to C8 as stated: the line whose remainder after the
prefix is the sentinel followed by a trailing space is treated as the
sentinel by the code (the remainder is stripped before comparison),
although the remainder is not the literal sentinel. -/
theorem C8_counterexample :
    startsWithData "data: [DONE] " = true
    ∧ afterDataPrefix "data: [DONE] " ≠ "[DONE]"
    ∧ processLine "data: [DONE] " = .sentinelDone :=
  ⟨rfl, by decide, rfl⟩

/-- C8 as amended: a `data: ` line is treated as the end-of-stream
sentinel exactly when the remainder after the prefix, stripped of
surrounding whitespace, is the literal sentinel; the sentinel stops
forwarding for that line only and does not close the relay early, so
later lines of the stream are still processed. -/
theorem C8_sentinel_detection (l : String) (hp : startsWithData l = true)
    (ls : List String) :
    (processLine l = .sentinelDone ↔ pyStrip (afterDataPrefix l) = "[DONE]")
    ∧ (processLine l = .sentinelDone → relayFragments (l :: ls) = relayFragments ls) := by
  constructor
  · unfold processLine
    rw [if_neg (ne_empty_of_startsWithData hp), hp]
    simp only [if_true]
    by_cases hd : pyStrip (afterDataPrefix l) = "[DONE]"
    · rw [if_pos hd]
      simp [hd]
    · rw [if_neg hd]
      simp only [hd, iff_false]
      cases parseJson (afterDataPrefix l) with
      | none => simp
      | some data =>
        cases hx : extractContent data with
        | error e => simp [hx]
        | ok o => cases o <;> simp [hx]
  · intro hdone
    exact relayFragments_cons_of_silent l ls (Or.inr (Or.inl hdone))

/-- Closed witness for the amended C8 at the plain sentinel line. -/
theorem C8_sentinel_detection_witness :
    (processLine doneLine = .sentinelDone ↔ pyStrip (afterDataPrefix doneLine) = "[DONE]")
    ∧ (processLine doneLine = .sentinelDone →
        relayFragments (doneLine :: [hiLine]) = relayFragments [hiLine]) :=
  C8_sentinel_detection doneLine rfl [hiLine]

/-- C10: a request whose model identifier is the empty string passes
body validation (only the presence of a string is checked) and,
provided no directory entry has an empty public name, receives the 404
model-not-found response rather than a 400 validation error, with no
outbound upstream call. -/
theorem C10_empty_model_name (ps : List Provider) (ub : UpstreamBehavior)
    (msgs : List Json) (hobjs : msgs.all isObjVal = true)
    (hnoempty : ∀ p ∈ ps, ∀ m ∈ p.models, m.name ≠ "") :
    validateBody { modelName := some (.str ""), messages := some (.arr msgs) }
      = some { modelName := "", messages := msgs }
    ∧ handleRequest ps { modelName := some (.str ""), messages := some (.arr msgs) } ub
      = (.httpError 404 (.text (notFoundDetail "")), []) := by
  have hv : validateBody { modelName := some (.str ""), messages := some (.arr msgs) }
      = some { modelName := "", messages := msgs } := by
    simp [validateBody, hobjs]
  refine ⟨hv, ?_⟩
  unfold handleRequest
  rw [hv]
  dsimp only
  unfold generate
  dsimp only
  rw [get_model_details_eq_none ps "" hnoempty]

/-- Closed witness for C10 at a concrete directory and message list. -/
theorem C10_empty_model_name_witness :
    validateBody { modelName := some (.str ""), messages := some (.arr [.obj []]) }
      = some { modelName := "", messages := [.obj []] }
    ∧ handleRequest demoProviders
        { modelName := some (.str ""), messages := some (.arr [.obj []]) }
        (.respond 200 "" [])
      = (.httpError 404 (.text (notFoundDetail "")), []) :=
  C10_empty_model_name demoProviders (.respond 200 "" []) [.obj []] rfl (by decide)

/-- Counterexample to C9 as stated: the remainder of the line is valid
JSON (a top-level string), yet the extraction code raises an
AttributeError on it, which ends the relay loop, so a later
well-formed line forwards nothing. -/
theorem C9_counterexample :
    parseJson (afterDataPrefix "data: \"hello\"") = some (.str "hello")
    ∧ processLine "data: \"hello\"" = .raised .attributeError
    ∧ relayFragments ["data: \"hello\"", hiLine] = [] :=
  ⟨rfl, rfl, rfl⟩

/-- C9 as amended: over lines whose remainder parses as a JSON object
with object-shaped nesting, extraction is total: when choices is
absent, or is the empty array, or its first element is an object
without a delta key, or the delta object has no content key, or the
content is falsy, no fragment is forwarded and no exception is raised;
and every forwarded fragment is a non-empty string. A parsed value of
unexpected type (such as a non-object top level) instead raises an
exception that ends the relay, as the counterexample shows. -/
theorem C9_extraction_shape_total :
    (∀ fs, objGet fs "choices" = none → extractContent (.obj fs) = .ok none)
    ∧ (∀ fs, objGet fs "choices" = some (.arr []) → extractContent (.obj fs) = .ok none)
    ∧ (∀ fs g rest, objGet fs "choices" = some (.arr (.obj g :: rest)) →
        (g.any fun p => p.1 == "delta") = false →
        extractContent (.obj fs) = .ok none)
    ∧ (∀ fs g rest dl, objGet fs "choices" = some (.arr (.obj g :: rest)) →
        objGet g "delta" = some (.obj dl) →
        (dl.any fun p => p.1 == "content") = false →
        extractContent (.obj fs) = .ok none)
    ∧ (∀ fs g rest dl c, objGet fs "choices" = some (.arr (.obj g :: rest)) →
        objGet g "delta" = some (.obj dl) →
        objGet dl "content" = some c →
        pyTruthy c = false →
        extractContent (.obj fs) = .ok none)
    ∧ (∀ j s, extractContent j = .ok (some s) → s ≠ "") := by
  refine ⟨?_, ?_, ?_, ?_, ?_, ?_⟩
  · intro fs h
    simp [extractContent, h, pyTruthy]
  · intro fs h
    simp [extractContent, h, pyTruthy]
  · intro fs g rest h hg
    simp [extractContent, h, pyTruthy, pySubscriptZero, pyContains, hg]
  · intro fs g rest dl h hdl hc
    have hany := objGet_isSome_any g "delta" (.obj dl) hdl
    simp [extractContent, h, pyTruthy, pySubscriptZero, pyContains, hany,
      pySubscriptStr, hdl, hc]
  · intro fs g rest dl c h hdl hcg ht
    have hany := objGet_isSome_any g "delta" (.obj dl) hdl
    have hany2 := objGet_isSome_any dl "content" c hcg
    have h1 : pyTruthy (Json.arr (Json.obj g :: rest)) = true := rfl
    simp [extractContent, h, h1, pySubscriptZero, pyContains, hany,
      hany2, pySubscriptStr, hdl, hcg, ht]
  · intro j s h
    cases j with
    | null => exact absurd h (by simp [extractContent])
    | bool b => exact absurd h (by simp [extractContent])
    | num n => exact absurd h (by simp [extractContent])
    | str s2 => exact absurd h (by simp [extractContent])
    | arr xs => exact absurd h (by simp [extractContent])
    | obj fs =>
      simp only [extractContent] at h
      repeat' split at h
      all_goals simp_all [pyTruthy]

/-- Closed witness for the amended C9, one concrete object per shape. -/
theorem C9_extraction_shape_total_witness :
    extractContent (.obj []) = .ok none
    ∧ extractContent (.obj [("choices", .arr [])]) = .ok none
    ∧ extractContent (.obj [("choices", .arr [.obj []])]) = .ok none
    ∧ extractContent (.obj [("choices", .arr [.obj [("delta", .obj [])]])]) = .ok none
    ∧ extractContent (.obj [("choices", .arr [.obj [("delta", .obj [("content", .str "")])]])]) = .ok none
    ∧ ("Hi" : String) ≠ "" :=
  ⟨C9_extraction_shape_total.1 [] rfl,
   C9_extraction_shape_total.2.1 [("choices", .arr [])] rfl,
   C9_extraction_shape_total.2.2.1 [("choices", .arr [.obj []])] [] [] rfl rfl,
   C9_extraction_shape_total.2.2.2.1 [("choices", .arr [.obj [("delta", .obj [])]])]
     [("delta", .obj [])] [] [] rfl rfl rfl,
   C9_extraction_shape_total.2.2.2.2.1
     [("choices", .arr [.obj [("delta", .obj [("content", .str "")])]])]
     [("delta", .obj [("content", .str "")])] [] [("content", .str "")] (.str "")
     rfl rfl rfl rfl,
   C9_extraction_shape_total.2.2.2.2.2
     (.obj [("choices", .arr [.obj [("delta", .obj [("content", .str "Hi")])]])]) "Hi" rfl⟩
